import Mathlib

/-!
Shallow embedding of the gearlever core (src/AppDetails.py and
src/lib/json_config.py) and proofs about its lifecycle handlers,
config store, key derivation, update polling and environment editor.

Python dicts are modelled as association lists without duplicate keys
(operations look up / replace the first occurrence); raised Python
exceptions are modelled with explicit error values threaded through the
handler results; GTK side effects that the spec talks about (css error
classes, button visibility/sensitivity) are modelled as explicit fields
or effect lists; calls into the external Package Provider are recorded
in an effect list, and their outcomes are passed in as parameters.
-/

namespace Gearlever

/-! Python dict operations on association lists. -/

/-- Model of `d[k]` lookup returning the first binding of `k`, if any. -/
def dictGet {α : Type} (d : List (String × α)) (k : String) : Option α :=
  match d with
  | [] => none
  | (k', v) :: rest => if k' = k then some v else dictGet rest k

/-- Model of `d[k] = v`: replace the first binding of `k`, or append one. -/
def dictSet {α : Type} (d : List (String × α)) (k : String) (v : α) :
    List (String × α) :=
  match d with
  | [] => [(k, v)]
  | (k', v') :: rest =>
    if k' = k then (k, v) :: rest else (k', v') :: dictSet rest k v

/-- Model of `k in d`. -/
def dictContains {α : Type} (d : List (String × α)) (k : String) : Bool :=
  (dictGet d k).isSome

/-- Model of `del d[k]`: removes the first binding of `k`; raises `KeyError`
(modelled as `Except.error ()`) when `k` is absent. -/
def dictDel {α : Type} (d : List (String × α)) (k : String) :
    Except Unit (List (String × α)) :=
  match d with
  | [] => .error ()
  | (k', v') :: rest =>
    if k' = k then .ok rest
    else
      match dictDel rest k with
      | .error e => .error e
      | .ok rest' => .ok ((k', v') :: rest')

theorem dictGet_dictSet_self {α : Type} (d : List (String × α)) (k : String) (v : α) :
    dictGet (dictSet d k v) k = some v := by
  induction d with
  | nil => simp [dictGet, dictSet]
  | cons hd tl ih =>
    obtain ⟨k', v'⟩ := hd
    by_cases h : k' = k <;> simp [dictGet, dictSet, h, ih]

theorem dictGet_dictSet_ne {α : Type} (d : List (String × α)) (k : String) (v : α)
    (k2 : String) (h : k2 ≠ k) : dictGet (dictSet d k v) k2 = dictGet d k2 := by
  have hne : ¬ (k = k2) := fun hh => h hh.symm
  induction d with
  | nil => simp [dictGet, dictSet, hne]
  | cons hd tl ih =>
    obtain ⟨k', v'⟩ := hd
    by_cases hk : k' = k
    · subst hk
      simp [dictGet, dictSet, hne]
    · simp only [dictSet, if_neg hk, dictGet]
      by_cases hk2 : k' = k2 <;> simp [hk2, ih]

theorem dictContains_iff_mem_keys {α : Type} (d : List (String × α)) (k : String) :
    dictContains d k = true ↔ k ∈ d.map Prod.fst := by
  induction d with
  | nil => simp [dictContains, dictGet]
  | cons hd tl ih =>
    obtain ⟨k', v'⟩ := hd
    by_cases h : k' = k
    · subst h
      simp [dictContains, dictGet]
    · simp only [dictContains, dictGet, if_neg h, List.map_cons, List.mem_cons]
      simp only [dictContains] at ih
      constructor
      · intro hc
        exact Or.inr (ih.mp hc)
      · rintro (hc | hc)
        · exact absurd hc.symm h
        · exact ih.mpr hc

theorem dictGet_eq_none_of_not_contains {α : Type} (d : List (String × α)) (k : String)
    (h : dictContains d k = false) : dictGet d k = none := by
  unfold dictContains at h
  cases hg : dictGet d k <;> simp [hg] at h ⊢

theorem dictDel_of_not_contains {α : Type} (d : List (String × α)) (k : String)
    (h : dictContains d k = false) : dictDel d k = .error () := by
  induction d with
  | nil => simp [dictDel]
  | cons hd tl ih =>
    obtain ⟨k', v'⟩ := hd
    by_cases hk : k' = k
    · subst hk
      simp [dictContains, dictGet] at h
    · simp only [dictContains, dictGet, if_neg hk] at h
      have h2 : dictContains tl k = false := by simp [dictContains, h]
      simp [dictDel, hk, ih h2]

theorem dictDel_of_contains {α : Type} (d : List (String × α)) (k : String)
    (hnd : (d.map Prod.fst).Nodup) (h : dictContains d k = true) :
    ∃ d', dictDel d k = .ok d' ∧ dictContains d' k = false := by
  induction d with
  | nil => simp [dictContains, dictGet] at h
  | cons hd tl ih =>
    obtain ⟨k', v'⟩ := hd
    simp only [List.map_cons, List.nodup_cons] at hnd
    by_cases hk : k' = k
    · subst hk
      refine ⟨tl, by simp [dictDel], ?_⟩
      rw [Bool.eq_false_iff]
      intro hc
      exact hnd.1 ((dictContains_iff_mem_keys tl k').mp hc)
    · simp only [dictContains, dictGet, if_neg hk] at h
      have h2 : dictContains tl k = true := h
      obtain ⟨d', hdel, hc⟩ := ih hnd.2 h2
      refine ⟨(k', v') :: d', by simp [dictDel, hk, hdel], ?_⟩
      simpa [dictContains, dictGet, hk] using hc

/-! Python string helpers used by the handlers. -/

/-- Whitespace characters removed by Python's `str.strip()`. -/
def pyWhitespace (c : Char) : Bool :=
  c = ' ' ∨ c = '\t' ∨ c = '\n' ∨ c = '\r' ∨ c = Char.ofNat 11 ∨ c = Char.ofNat 12

def dropLeadingWs : List Char → List Char
  | [] => []
  | c :: cs => if pyWhitespace c then dropLeadingWs cs else c :: cs

/-- Model of Python's `str.strip()`. -/
def pyStrip (s : String) : String :=
  ⟨dropLeadingWs ((dropLeadingWs s.data.reverse).reverse)⟩

/-- Characters Python's `shlex.quote` considers safe: ASCII alphanumerics,
underscore, and the punctuation at-sign, percent, plus, equals, colon,
comma, dot, slash, dash. -/
def shlex_safe_char (c : Char) : Bool :=
  c.isAlphanum ∨ c = '_' ∨ c = '@' ∨ c = '%' ∨ c = '+' ∨ c = '=' ∨ c = ':' ∨
    c = ',' ∨ c = '.' ∨ c = '/' ∨ c = '-'

/-- Model of Python's `shlex.quote`: empty strings become a pair of single
quotes, safe strings are returned unchanged, anything else is wrapped in
single quotes with embedded single quotes escaped. -/
def shlex_quote (s : String) : String :=
  if s.data = [] then "\x27\x27"
  else if s.data.all shlex_safe_char then s
  else
    "\x27" ++
      ⟨(s.data.map (fun c =>
        if c = '\x27' then "\x27\x22\x27\x22\x27".data else [c])).flatten⟩ ++
      "\x27"

/-! Model of the key derivation in json_config.read_config_for_app:
`base64.b64encode(el.name.encode('ascii')).decode('ascii')`. -/

def b64alphabet : List Char :=
  "ABCDEFGHIJKLMNOPQRSTUVWXYZabcdefghijklmnopqrstuvwxyz0123456789+/".data

/-- The base64 digit for a sextet value. -/
def b64char (n : Nat) : Char := b64alphabet.getD n '?'

/-- Position of a character in the base64 alphabet. -/
def b64inv (c : Char) : Nat := b64alphabet.findIdx (fun x => x = c)

/-- Standard base64 of a byte sequence, producing 4 output characters per
3 input bytes, with trailing groups padded with the pad character. -/
def b64encodeBytes : List Nat → List Char
  | [] => []
  | [a] => [b64char (a / 4), b64char (a % 4 * 16), '=', '=']
  | [a, b] => [b64char (a / 4), b64char (a % 4 * 16 + b / 16), b64char (b % 16 * 4), '=']
  | a :: b :: c :: rest =>
    b64char (a / 4) :: b64char (a % 4 * 16 + b / 16) :: b64char (b % 16 * 4 + c / 64) ::
      b64char (c % 64) :: b64encodeBytes rest

/-- Inverse of `b64encodeBytes`, used to establish injectivity of the
key derivation. -/
def b64decodeBytes : List Char → Option (List Nat)
  | [] => some []
  | c1 :: c2 :: c3 :: c4 :: rest =>
    if c3 = '=' then
      if c4 = '=' ∧ rest = [] then some [b64inv c1 * 4 + b64inv c2 / 16] else none
    else if c4 = '=' then
      if rest = [] then
        some [b64inv c1 * 4 + b64inv c2 / 16, b64inv c2 % 16 * 16 + b64inv c3 / 4]
      else none
    else
      (b64decodeBytes rest).map (fun tl =>
        (b64inv c1 * 4 + b64inv c2 / 16) :: (b64inv c2 % 16 * 16 + b64inv c3 / 4) ::
          (b64inv c3 % 4 * 64 + b64inv c4) :: tl)
  | _ => none

/-- Model of `str.encode('ascii')`: raises `UnicodeEncodeError` (modelled as
`none`) when any character is outside the ASCII range. -/
def encode_ascii (s : String) : Option (List Nat) :=
  if s.data.all (fun c => c.toNat < 128) then some (s.data.map Char.toNat) else none

/-- The derived config-store key for an element name, as computed by
read_config_for_app: ascii-encode the name, then base64 it. `none` models
a raised `UnicodeEncodeError`. -/
def derive_b64name (s : String) : Option String :=
  (encode_ascii s).map (fun bs => String.mk (b64encodeBytes bs))

theorem b64char_lt_ne_pad : ∀ n, n < 64 → b64char n ≠ '=' := by decide

theorem b64inv_b64char : ∀ n, n < 64 → b64inv (b64char n) = n := by decide

theorem b64_roundtrip (l : List Nat) (h : ∀ x ∈ l, x < 256) :
    b64decodeBytes (b64encodeBytes l) = some l :=
  match l with
  | [] => by simp [b64encodeBytes, b64decodeBytes]
  | [a] => by
    have ha : a < 256 := h a (by simp)
    have h1 : a / 4 < 64 := by omega
    have h2 : a % 4 * 16 < 64 := by omega
    simp [b64encodeBytes, b64decodeBytes, b64inv_b64char _ h1, b64inv_b64char _ h2]
    omega
  | [a, b] => by
    have ha : a < 256 := h a (by simp)
    have hb : b < 256 := h b (by simp)
    have h1 : a / 4 < 64 := by omega
    have h2 : a % 4 * 16 + b / 16 < 64 := by omega
    have h3 : b % 16 * 4 < 64 := by omega
    simp [b64encodeBytes, b64decodeBytes, b64char_lt_ne_pad _ h3,
      b64inv_b64char _ h1, b64inv_b64char _ h2, b64inv_b64char _ h3]
    omega
  | a :: b :: c :: rest => by
    have ha : a < 256 := h a (by simp)
    have hb : b < 256 := h b (by simp)
    have hc : c < 256 := h c (by simp)
    have ih := b64_roundtrip rest (fun x hx => h x (by simp [hx]))
    have h1 : a / 4 < 64 := by omega
    have h2 : a % 4 * 16 + b / 16 < 64 := by omega
    have h3 : b % 16 * 4 + c / 64 < 64 := by omega
    have h4 : c % 64 < 64 := by omega
    show b64decodeBytes (b64encodeBytes (a :: b :: c :: rest)) = some (a :: b :: c :: rest)
    rw [show b64encodeBytes (a :: b :: c :: rest) =
      b64char (a / 4) :: b64char (a % 4 * 16 + b / 16) :: b64char (b % 16 * 4 + c / 64) ::
        b64char (c % 64) :: b64encodeBytes rest from rfl]
    rw [b64decodeBytes]
    rw [if_neg (b64char_lt_ne_pad _ h3), if_neg (b64char_lt_ne_pad _ h4), ih]
    rw [b64inv_b64char _ h1, b64inv_b64char _ h2, b64inv_b64char _ h3, b64inv_b64char _ h4]
    have hrec1 : a / 4 * 4 + (a % 4 * 16 + b / 16) / 16 = a := by omega
    have hrec2 : (a % 4 * 16 + b / 16) % 16 * 16 + (b % 16 * 4 + c / 64) / 4 = b := by omega
    have hrec3 : (b % 16 * 4 + c / 64) % 4 * 64 + c % 64 = c := by omega
    simp [hrec1, hrec2, hrec3]

theorem char_toNat_injective : Function.Injective Char.toNat := by
  intro c1 c2 hh
  exact Char.ofNat_toNat c1 ▸ Char.ofNat_toNat c2 ▸ congrArg Char.ofNat hh

theorem derive_b64name_some (s : String) (hascii : ∀ c ∈ s.data, c.toNat < 128) :
    derive_b64name s = some (String.mk (b64encodeBytes (s.data.map Char.toNat))) := by
  have hall : s.data.all (fun c => c.toNat < 128) = true := by
    rw [List.all_eq_true]
    intro x hx
    simpa using hascii x hx
  simp [derive_b64name, encode_ascii, hall]

theorem derive_b64name_injective (a b : String)
    (hasciia : ∀ c ∈ a.data, c.toNat < 128) (hasciib : ∀ c ∈ b.data, c.toNat < 128)
    (heq : derive_b64name a = derive_b64name b) : a = b := by
  rw [derive_b64name_some a hasciia, derive_b64name_some b hasciib] at heq
  have henc : b64encodeBytes (a.data.map Char.toNat) = b64encodeBytes (b.data.map Char.toNat) := by
    have hmk := Option.some.inj heq
    injection hmk
  have hra := b64_roundtrip (a.data.map Char.toNat)
    (by intro x hx; simp at hx; obtain ⟨c, hm, hrfl⟩ := hx; have := hasciia c hm; omega)
  have hrb := b64_roundtrip (b.data.map Char.toNat)
    (by intro x hx; simp at hx; obtain ⟨c, hm, hrfl⟩ := hx; have := hasciib c hm; omega)
  rw [henc, hrb] at hra
  have hdata : a.data.map Char.toNat = b.data.map Char.toNat := (Option.some.inj hra).symm
  exact congrArg String.mk ((List.map_injective_iff.mpr char_toNat_injective) hdata)

/-! Data model: models.AppListElement.InstalledStatus,
providers.AppImageProvider.AppImageUpdateLogic and the fields of
AppImageListElement that the handlers in AppDetails.py touch. -/

inductive InstalledStatus where
  | NOT_INSTALLED
  | INSTALLING
  | INSTALLED
  | UNINSTALLING
  | UPDATE_AVAILABLE
  | UPDATING
  | ERROR
deriving Repr, DecidableEq

inductive AppImageUpdateLogic where
  | REPLACE
  | KEEP_BOTH
deriving Repr, DecidableEq

structure AppImageListElement where
  name : String
  version : String
  installed_status : InstalledStatus
  trusted : Bool
  /-- `none` models `desktop_entry is None`; `some b` models a desktop entry
  whose `getTerminal()` returns `b`. -/
  desktop_entry_terminal : Option Bool
  exec_arguments : List String
  env_variables : List String
  update_logic : Option AppImageUpdateLogic
  is_updatable_from_url : Option Bool
  /-- Name of the package being superseded, set on the REPLACE path. -/
  updating_from : Option String
deriving Repr, DecidableEq

/-- Python exceptions that the handlers can raise or observe. -/
inductive PyErr where
  | providerError
  | keyError
  | unicodeEncodeError
  | attributeError
deriving Repr, DecidableEq

/-- State-changing calls into the external Package Provider, recorded in
order of invocation. Read-only queries (is_updatable, get_icon, ...) are not
recorded; their results enter the handlers as parameters. -/
inductive ProviderCall where
  | install_file (name : String)
  | uninstall (name : String)
  | uninstall_none
  | run (name : String)
deriving Repr, DecidableEq

/-- A per-application record of the persisted 'apps' document: field name to
string value, as stored by json_config. -/
abbrev AppConfig := List (String × String)

/-- The persisted 'apps' document: derived key to application record.
read_json_config / set_json_config are modelled as the identity on this
value; every handler threads the persisted store explicitly. -/
abbrev Store := List (String × AppConfig)

/-- Model of json_config.read_config_for_app: derives the base64 key from
the element name (raising `UnicodeEncodeError` for non-ascii names), looks
the record up in the 'apps' store — substituting a fresh empty record when
the key is absent — and stamps the record's b64name field with the key. -/
def read_config_for_app (conf : Store) (name : String) : Except PyErr AppConfig :=
  match derive_b64name name with
  | none => .error .unicodeEncodeError
  | some b64name =>
    let app_config := match dictGet conf b64name with
      | some c => c
      | none => []
    .ok (dictSet app_config "b64name" b64name)

/-- Modelled from the spec: AppListElement.set_trusted is defined outside
the sources under inspection; per the Trust Gate section the flag is
one-directional, so setting it writes true. -/
def set_trusted (el : AppImageListElement) : AppImageListElement :=
  { el with trusted := true }

/-- Result of a primary-action-button click (install or uninstall). -/
structure ClickOutcome where
  el : AppImageListElement
  conf : Store
  calls : List ProviderCall
  modal_presented : Bool
  emitted_uninstalled : Bool
  uncaught : Option PyErr
deriving Repr, DecidableEq

/-- Model of AppDetails.on_primary_action_button_clicked.

INSTALLED branch: sets UNINSTALLING, calls provider.uninstall (unguarded —
a raising provider propagates out of the handler before any config work),
then deletes the app's record from the 'apps' store with an unguarded
`del` and emits 'uninstalled-app'.

NOT_INSTALLED branch: when provider.is_updatable reports a same-name
installed package and no update_logic resolution is cached, presents the
conflict modal and returns without touching the element or calling the
provider. Otherwise sets INSTALLING and, when trusted, performs the
REPLACE uninstall (when resolved as REPLACE) and delegates to install_file.

`provider_is_updatable` is the result of the provider.is_updatable query;
`installed_list` is the result of provider.list_installed();
`provider_uninstall_raises` tells whether the provider.uninstall delegate
raises. -/
def on_primary_action_installed (el : AppImageListElement) (conf : Store)
    (provider_uninstall_raises : Bool) : ClickOutcome :=
  let el2 := { el with installed_status := .UNINSTALLING }
  let calls := [ProviderCall.uninstall el.name]
  if provider_uninstall_raises then
    { el := el2, conf, calls, modal_presented := false, emitted_uninstalled := false,
      uncaught := some .providerError }
  else
    match read_config_for_app conf el.name with
    | .error e =>
      { el := el2, conf, calls, modal_presented := false, emitted_uninstalled := false,
        uncaught := some e }
    | .ok app_config =>
      match dictGet app_config "b64name" with
      | none =>
        { el := el2, conf, calls, modal_presented := false, emitted_uninstalled := false,
          uncaught := some .keyError }
      | some b64name =>
        match dictDel conf b64name with
        | .error _ =>
          { el := el2, conf, calls, modal_presented := false, emitted_uninstalled := false,
            uncaught := some .keyError }
        | .ok conf2 =>
          { el := el2, conf := conf2, calls, modal_presented := false,
            emitted_uninstalled := true, uncaught := none }

def on_primary_action_not_installed (el : AppImageListElement) (conf : Store)
    (provider_is_updatable : Bool) (installed_list : List AppImageListElement) :
    ClickOutcome :=
  if provider_is_updatable ∧ el.update_logic = none then
    { el, conf, calls := [], modal_presented := true, emitted_uninstalled := false,
      uncaught := none }
  else
    let el2 := { el with installed_status := .INSTALLING }
    if el.trusted then
      if el.update_logic = some .REPLACE then
        match installed_list.find? (fun old_v => old_v.name = el.name) with
        | some old_version =>
          let el3 := { el2 with updating_from := some old_version.name }
          { el := el3, conf, calls := [.uninstall old_version.name, .install_file el.name],
            modal_presented := false, emitted_uninstalled := false, uncaught := none }
        | none =>
          let el3 := { el2 with updating_from := none }
          { el := el3, conf, calls := [.uninstall_none], modal_presented := false,
            emitted_uninstalled := false, uncaught := some .attributeError }
      else
        { el := el2, conf, calls := [.install_file el.name], modal_presented := false,
          emitted_uninstalled := false, uncaught := none }
    else
      { el := el2, conf, calls := [], modal_presented := false,
        emitted_uninstalled := false, uncaught := none }

def on_primary_action_button_clicked (el : AppImageListElement) (conf : Store)
    (provider_is_updatable : Bool) (installed_list : List AppImageListElement)
    (provider_uninstall_raises : Bool) : ClickOutcome :=
  if el.installed_status = .INSTALLED then
    on_primary_action_installed el conf provider_uninstall_raises
  else if el.installed_status = .NOT_INSTALLED then
    on_primary_action_not_installed el conf provider_is_updatable installed_list
  else
    { el, conf, calls := [], modal_presented := false, emitted_uninstalled := false,
      uncaught := none }

/-- Model of `AppImageUpdateLogic[data]`. -/
def appImageUpdateLogicOfString (data : String) : Option AppImageUpdateLogic :=
  if data = "REPLACE" then some .REPLACE
  else if data = "KEEP_BOTH" then some .KEEP_BOTH
  else none

/-- Model of AppDetails.on_conflict_modal_close: 'cancel' clears
update_logic and returns; any other response caches the resolution and
re-invokes the primary-action handler. -/
def on_conflict_modal_close (el : AppImageListElement) (conf : Store)
    (provider_is_updatable : Bool) (installed_list : List AppImageListElement)
    (provider_uninstall_raises : Bool) (data : String) : ClickOutcome :=
  if data = "cancel" then
    { el := { el with update_logic := none }, conf, calls := [], modal_presented := false,
      emitted_uninstalled := false, uncaught := none }
  else
    match appImageUpdateLogicOfString data with
    | none =>
      { el, conf, calls := [], modal_presented := false, emitted_uninstalled := false,
        uncaught := some .keyError }
    | some logic =>
      on_primary_action_button_clicked { el with update_logic := some logic } conf
        provider_is_updatable installed_list provider_uninstall_raises

/-- Model of AppDetails.install_file: delegates to provider.install_file;
a raising delegate is caught and logged, leaving the element as it was.
The delegate itself (outside the sources under inspection) is passed in as
its outcome; modelled from the spec, a successful delegate returns the
element it produced (the data-model invariant says no component but the
state machine writes installed_status, so the delegate leaves it alone). -/
def install_file (el : AppImageListElement)
    (provider_install : Except Unit AppImageListElement) : AppImageListElement :=
  match provider_install with
  | .error _ => el
  | .ok el2 => el2

/-- Model of AppDetails.update_status_callback: a false status moves the
element to ERROR. No call site exists in AppDetails.py. -/
def update_status_callback (el : AppImageListElement) (status : Bool) :
    AppImageListElement :=
  if !status then { el with installed_status := .ERROR } else el

/-- Model of AppDetails.after_trust_buttons_interaction (the banner's
unlock button): sets the trust flag. -/
def after_trust_buttons_interaction (el : AppImageListElement) : AppImageListElement :=
  { el with trusted := true }

/-- Result of a secondary-action-button click (launch). -/
structure LaunchOutcome where
  el : AppImageListElement
  calls : List ProviderCall
deriving Repr, DecidableEq

/-- Model of AppDetails.on_secondary_action_button_clicked: from INSTALLED
or NOT_INSTALLED, when the element is trusted and not a terminal app, calls
set_trusted and provider.run inside a try/except; otherwise does nothing. -/
def on_secondary_action_button_clicked (el : AppImageListElement) : LaunchOutcome :=
  if el.installed_status = .INSTALLED ∨ el.installed_status = .NOT_INSTALLED then
    let is_terminal := el.desktop_entry_terminal.getD false
    if el.trusted ∧ is_terminal = false then
      let el2 := set_trusted el
      { el := el2, calls := [.run el2.name] }
    else
      { el, calls := [] }
  else
    { el, calls := [] }

/-! Update poller and update apply. -/

/-- GUI side effects scheduled by check_updates, in order. -/
inductive GuiAction where
  | set_update_btn_visible (b : Bool)
  | set_update_btn_label (s : String)
  | set_update_btn_sensitive (b : Bool)
  | add_css_error_update_url_row
deriving Repr, DecidableEq

/-- Behaviour of a Resolver obtained from UpdateManagerChecker.check_url:
outcome of its is_update_available query (`Except.error` models a raised
exception). -/
structure ResolverBehavior where
  is_update_available_result : Except Unit Bool
deriving Repr

/-- Result of a check_updates poll. -/
structure CheckUpdatesOutcome where
  el : AppImageListElement
  gui : List GuiAction
  cleanup_calls : Nat
  uncaught : Option PyErr
deriving Repr, DecidableEq

/-- Model of AppDetails.check_updates: reads the app's config record, skips
silently when no update_url is stored, marks the update-url row invalid
when check_url yields no manager, and otherwise queries the manager and
records the result in is_updatable_from_url. The function body contains no
manager.cleanup() call, so every path reports zero cleanup calls. -/
def check_updates (el : AppImageListElement) (conf : Store)
    (check_url : String → Option ResolverBehavior) (url_row_present : Bool) :
    CheckUpdatesOutcome :=
  match read_config_for_app conf el.name with
  | .error e => { el, gui := [], cleanup_calls := 0, uncaught := some e }
  | .ok app_conf =>
    let gui0 := [GuiAction.set_update_btn_visible false]
    let update_url := (dictGet app_conf "update_url").getD ""
    if update_url = "" then
      { el, gui := gui0, cleanup_calls := 0, uncaught := none }
    else
      match check_url update_url with
      | none =>
        { el,
          gui := gui0 ++ (if url_row_present then [GuiAction.add_css_error_update_url_row] else []),
          cleanup_calls := 0, uncaught := none }
      | some manager =>
        match manager.is_update_available_result with
        | .error _ => { el, gui := gui0, cleanup_calls := 0, uncaught := some .providerError }
        | .ok is_updatable =>
          { el := { el with is_updatable_from_url := some is_updatable },
            gui := gui0 ++
              [GuiAction.set_update_btn_visible true,
               GuiAction.set_update_btn_label
                 (if is_updatable then "Update" else "No updates available"),
               GuiAction.set_update_btn_sensitive is_updatable],
            cleanup_calls := 0, uncaught := none }

/-- Result of clicking the update button. -/
structure UpdateApplyOutcome where
  el : AppImageListElement
  cleanup_calls : Nat
  error_dialog_shown : Bool
  uncaught : Option PyErr
deriving Repr, DecidableEq

/-- Model of AppDetails.update_action_button_clicked: obtains a manager from
the stored update url, runs provider.update_from_url inside a try/except
that surfaces failures in a dialog, then calls manager.cleanup()
unconditionally. When check_url produced no manager, the update call's
failure is caught but `None.cleanup()` then raises AttributeError. The
handler itself assigns no element field; the provider delegates it calls
afterwards (reload_metadata, refresh_title) are modelled from the spec as
not writing installed_status or trusted, so the element passes through. -/
def update_action_button_clicked (el : AppImageListElement) (manager_found : Bool)
    (update_from_url_raises : Bool) : UpdateApplyOutcome :=
  if manager_found then
    if update_from_url_raises then
      { el, cleanup_calls := 1, error_dialog_shown := true, uncaught := none }
    else
      { el, cleanup_calls := 1, error_dialog_shown := false, uncaught := none }
  else
    { el, cleanup_calls := 0, error_dialog_shown := true, uncaught := some .attributeError }

/-- Model of AppDetails.on_web_browser_input_apply: strips the widget text,
rejects non-empty invalid urls by css-marking only, and otherwise writes
the website field of the app's record back through the 'apps' store.
`url_ok` is the result of the url_is_valid helper on the stripped text. -/
def on_web_browser_input_apply (conf : Store) (name : String) (widget_text : String)
    (url_ok : Bool) : Store :=
  let text := pyStrip widget_text
  if text ≠ "" ∧ url_ok = false then conf
  else
    match read_config_for_app conf name with
    | .error _ => conf
    | .ok app_conf =>
      let app_conf2 := dictSet app_conf "website" text
      match dictGet app_conf2 "b64name" with
      | none => conf
      | some b64name => dictSet conf b64name app_conf2

/-! Environment variable editor. -/

/-- One key/value row of the editor: the two entry texts, whether each
entry carries the css error class, and whether the value entry is
sensitive. -/
structure EnvRow where
  key_text : String
  value_text : String
  key_error : Bool
  value_error : Bool
  value_sensitive : Bool
deriving Repr, DecidableEq

/-- Working state of the editor: the rows and the save button's
sensitivity. -/
structure EnvEditorState where
  rows : List EnvRow
  save_btn_sensitive : Bool
deriving Repr, DecidableEq

/-- Model of AppDetails.create_edit_env_var_form: appends a row whose value
entry is sensitive only when the key text is non-empty. -/
def create_edit_env_var_form (st : EnvEditorState) (key value : String) : EnvEditorState :=
  { st with rows := st.rows ++
      [{ key_text := key, value_text := value, key_error := false, value_error := false,
         value_sensitive := key.length > 0 }] }

/-- Model of AppDetails.on_env_var_value_changed for the row at index `i`:
re-enables the value entry iff the key is non-empty, clears the row's
error mark, and when the key is non-empty re-counts rows sharing this key,
marking only this row invalid when the key occurs more than once. Only the
changed row's flags are written. -/
def on_env_var_value_changed (st : EnvEditorState) (i : Nat) : EnvEditorState :=
  match st.rows[i]? with
  | none => st
  | some row =>
    let key := row.key_text
    let row2 := { row with value_sensitive := key.length > 0, key_error := false }
    if key = "" then { st with rows := st.rows.set i row2 }
    else
      let counts := (st.rows.filter (fun r => r.key_text = key)).length
      let row3 := { row2 with key_error := counts > 1, value_sensitive := counts = 1 }
      { rows := st.rows.set i row3, save_btn_sensitive := counts = 1 }

/-- A user edit of the key entry of row `i`: the text change fires the
'changed' signal, which runs on_env_var_value_changed for that row. -/
def set_key_text (st : EnvEditorState) (i : Nat) (s : String) : EnvEditorState :=
  match st.rows[i]? with
  | none => st
  | some row =>
    on_env_var_value_changed { st with rows := st.rows.set i { row with key_text := s } } i

/-- A user edit of the value entry of row `i`; fires the same handler. -/
def set_value_text (st : EnvEditorState) (i : Nat) (s : String) : EnvEditorState :=
  match st.rows[i]? with
  | none => st
  | some row =>
    on_env_var_value_changed { st with rows := st.rows.set i { row with value_text := s } } i

/-- Model of AppDetails.update_env_variables: rebuilds env_variables from
the rows, skipping rows whose key or value entry is error-marked, stripping
key and value, shell-quoting the value, and keeping only non-empty keys. -/
def update_env_variables : List EnvRow → List String
  | [] => []
  | r :: rest =>
    if r.key_error ∨ r.value_error then update_env_variables rest
    else
      let key := pyStrip r.key_text
      let value := shlex_quote (pyStrip r.value_text)
      if key ≠ "" then (key ++ "=" ++ value) :: update_env_variables rest
      else update_env_variables rest

/-! Concrete fixtures used by witnesses and counterexamples. -/

/-- A sample element with the given name and installed status; the other
fields take innocuous defaults. -/
def mkEl (name : String) (status : InstalledStatus) : AppImageListElement :=
  { name, version := "1.0", installed_status := status, trusted := true,
    desktop_entry_terminal := none, exec_arguments := [], env_variables := [],
    update_logic := none, is_updatable_from_url := none, updating_from := none }

/-- A store holding one record for "App" under its derived key. -/
def c1conf : Store := [("QXBw", [("b64name", "QXBw"), ("website", "w")])]

theorem primary_click_eq_installed (el : AppImageListElement) (conf : Store)
    (pu : Bool) (il : List AppImageListElement) (r : Bool)
    (hst : el.installed_status = .INSTALLED) :
    on_primary_action_button_clicked el conf pu il r =
      on_primary_action_installed el conf r := by
  simp [on_primary_action_button_clicked, hst]

theorem primary_click_eq_not_installed (el : AppImageListElement) (conf : Store)
    (pu : Bool) (il : List AppImageListElement) (r : Bool)
    (hst : el.installed_status = .NOT_INSTALLED) :
    on_primary_action_button_clicked el conf pu il r =
      on_primary_action_not_installed el conf pu il := by
  simp [on_primary_action_button_clicked, hst]

/-! Claim C1. -/

/-- C1 counterexample: with an installed "App" whose record is persisted, a
raising provider.uninstall propagates out of the click handler before the
record deletion — the store still contains the record and no warning path
exists, contradicting the claim that local cleanup always proceeds. -/
theorem C1_counterexample :
    (on_primary_action_button_clicked (mkEl "App" .INSTALLED) c1conf false [] true).conf =
      c1conf ∧
    dictContains
      (on_primary_action_button_clicked (mkEl "App" .INSTALLED) c1conf false [] true).conf
      "QXBw" = true ∧
    (on_primary_action_button_clicked (mkEl "App" .INSTALLED) c1conf false [] true).uncaught =
      some .providerError ∧
    (on_primary_action_button_clicked (mkEl "App" .INSTALLED) c1conf false [] true).emitted_uninstalled =
      false := by
  refine ⟨rfl, rfl, rfl, rfl⟩

/-- C1 (amended): the uninstall branch removes the package's record from
the 'apps' store only when the unguarded provider.uninstall call returns;
when the provider raises, the exception escapes the handler before any
config work, the store is untouched and nothing is logged. When the call
returns and a record exists under the derived key, the record is removed
and the uninstalled-app signal is emitted. -/
theorem C1_uninstall_record_removal (el : AppImageListElement) (conf : Store)
    (pu : Bool) (il : List AppImageListElement)
    (hst : el.installed_status = .INSTALLED) (k : String)
    (hk : derive_b64name el.name = some k)
    (hnd : (conf.map Prod.fst).Nodup) :
    ((on_primary_action_button_clicked el conf pu il true).conf = conf ∧
     (on_primary_action_button_clicked el conf pu il true).uncaught = some .providerError ∧
     (on_primary_action_button_clicked el conf pu il true).emitted_uninstalled = false ∧
     (on_primary_action_button_clicked el conf pu il true).calls =
       [ProviderCall.uninstall el.name]) ∧
    (dictContains conf k = true →
      dictContains (on_primary_action_button_clicked el conf pu il false).conf k = false ∧
      (on_primary_action_button_clicked el conf pu il false).uncaught = none ∧
      (on_primary_action_button_clicked el conf pu il false).emitted_uninstalled = true) := by
  constructor
  · rw [primary_click_eq_installed el conf pu il true hst]
    exact ⟨rfl, rfl, rfl, rfl⟩
  · intro hmem
    obtain ⟨conf2, hdel, hnc⟩ := dictDel_of_contains conf k hnd hmem
    have hread : read_config_for_app conf el.name = .ok (dictSet
        ((dictGet conf k).getD []) "b64name" k) := by
      unfold read_config_for_app
      simp only [hk]
      cases hg : dictGet conf k <;> simp [hg]
    rw [primary_click_eq_installed el conf pu il false hst]
    unfold on_primary_action_installed
    rw [if_neg (by simp)]
    simp only [hread, dictGet_dictSet_self, hdel]
    simp [hnc]

/-- C1 witness: the amended theorem applied to a concrete installed "App"
with a persisted record. -/
theorem C1_uninstall_record_removal_witness :
    (((on_primary_action_button_clicked (mkEl "App" .INSTALLED) c1conf false [] true).conf =
        c1conf ∧
      (on_primary_action_button_clicked (mkEl "App" .INSTALLED) c1conf false [] true).uncaught =
        some .providerError ∧
      (on_primary_action_button_clicked (mkEl "App" .INSTALLED) c1conf false [] true).emitted_uninstalled =
        false ∧
      (on_primary_action_button_clicked (mkEl "App" .INSTALLED) c1conf false [] true).calls =
        [ProviderCall.uninstall (mkEl "App" .INSTALLED).name]) ∧
     (dictContains c1conf "QXBw" = true →
       dictContains
         (on_primary_action_button_clicked (mkEl "App" .INSTALLED) c1conf false [] false).conf
         "QXBw" = false ∧
       (on_primary_action_button_clicked (mkEl "App" .INSTALLED) c1conf false [] false).uncaught =
         none ∧
       (on_primary_action_button_clicked (mkEl "App" .INSTALLED) c1conf false [] false).emitted_uninstalled =
         true)) :=
  C1_uninstall_record_removal (mkEl "App" .INSTALLED) c1conf false []
    (by decide) "QXBw" (by decide) (by decide)

/-! Claim C10. -/

/-- C10: when the installed package's identity was never written to the
'apps' store, the record lookup substitutes a fresh record holding only the
stamped b64name field instead of signaling absence, and the unguarded
`del conf[b64name]` after the provider uninstall raises KeyError, leaving
the store unchanged. -/
theorem C10_uninstall_keyerror (el : AppImageListElement) (conf : Store)
    (pu : Bool) (il : List AppImageListElement)
    (hst : el.installed_status = .INSTALLED) (k : String)
    (hk : derive_b64name el.name = some k)
    (habs : dictContains conf k = false) :
    (on_primary_action_button_clicked el conf pu il false).uncaught = some .keyError ∧
    (on_primary_action_button_clicked el conf pu il false).conf = conf ∧
    (on_primary_action_button_clicked el conf pu il false).calls =
      [ProviderCall.uninstall el.name] ∧
    read_config_for_app conf el.name = .ok [("b64name", k)] := by
  have hget : dictGet conf k = none := dictGet_eq_none_of_not_contains conf k habs
  have hread : read_config_for_app conf el.name = .ok [("b64name", k)] := by
    unfold read_config_for_app
    simp only [hk, hget]
    rfl
  have hdel : dictDel conf k = .error () := dictDel_of_not_contains conf k habs
  have hbget : dictGet [("b64name", k)] "b64name" = some k := by simp [dictGet]
  refine ⟨?_, ?_, ?_, hread⟩ <;>
    · rw [primary_click_eq_installed el conf pu il false hst]
      unfold on_primary_action_installed
      rw [if_neg (by simp)]
      simp only [hread, hbget, hdel]

/-- C10 witness: the theorem applied to an installed "App" and an 'apps'
store with no record for it. -/
theorem C10_uninstall_keyerror_witness :
    (on_primary_action_button_clicked (mkEl "App" .INSTALLED) [] false [] false).uncaught =
      some .keyError ∧
    (on_primary_action_button_clicked (mkEl "App" .INSTALLED) [] false [] false).conf = [] ∧
    (on_primary_action_button_clicked (mkEl "App" .INSTALLED) [] false [] false).calls =
      [ProviderCall.uninstall (mkEl "App" .INSTALLED).name] ∧
    read_config_for_app [] (mkEl "App" .INSTALLED).name = .ok [("b64name", "QXBw")] :=
  C10_uninstall_keyerror (mkEl "App" .INSTALLED) [] false [] (by decide) "QXBw"
    (by decide) (by decide)

/-! Claim C2. -/

/-- C2 counterexample: an install attempt on an element the click handler
has moved to INSTALLING, whose provider delegate raises, does not end in
ERROR — install_file catches the exception, logs it, and leaves the status
alone. -/
theorem C2_counterexample :
    (install_file (mkEl "App" .INSTALLING) (Except.error ())).installed_status ≠
      InstalledStatus.ERROR ∧
    (install_file (mkEl "App" .INSTALLING) (Except.error ())).installed_status =
      InstalledStatus.INSTALLING := by
  exact ⟨by decide, rfl⟩

/-- C2 (amended): when the Provider's install delegate raises, install_file
catches and logs the failure and returns the element unchanged — its
installedStatus stays whatever the click handler set (INSTALLING), not
ERROR; update_status_callback is the code that would map a false status to
ERROR (and leaves the element unchanged on a true status), but AppDetails
never invokes it on the install path. On delegate success the handler
passes the delegate's element through without setting INSTALLED itself. -/
theorem C2_install_failure_status :
    (∀ (el : AppImageListElement) (e : Unit), install_file el (Except.error e) = el) ∧
    (∀ el : AppImageListElement,
      (update_status_callback el false).installed_status = InstalledStatus.ERROR) ∧
    (∀ el : AppImageListElement, update_status_callback el true = el) ∧
    (∀ (el el2 : AppImageListElement), install_file el (Except.ok el2) = el2) :=
  ⟨fun _ _ => rfl, fun _ => rfl, fun _ => rfl, fun _ _ => rfl⟩

/-! Claim C4. -/

/-- An installed "Foo" and a store holding its update url. -/
def c4conf : Store := [("Rm9v", [("update_url", "https://example.com/app.json")])]

/-- C4 counterexample: an update poll that obtains a Resolver from the
descriptor url and successfully queries it performs zero cleanup calls —
check_updates contains no cleanup invocation — contradicting the claimed
exactly-once discipline. -/
theorem C4_counterexample :
    ((fun _ => some ⟨Except.ok true⟩ : String → Option ResolverBehavior)
        "https://example.com/app.json").isSome = true ∧
    (check_updates (mkEl "Foo" .INSTALLED) c4conf (fun _ => some ⟨Except.ok true⟩)
        true).el.is_updatable_from_url = some true ∧
    (check_updates (mkEl "Foo" .INSTALLED) c4conf (fun _ => some ⟨Except.ok true⟩)
        true).uncaught = none ∧
    (check_updates (mkEl "Foo" .INSTALLED) c4conf (fun _ => some ⟨Except.ok true⟩)
        true).cleanup_calls = 0 :=
  ⟨rfl, rfl, rfl, rfl⟩

/-- C4 (amended): the update-apply handler invokes manager.cleanup()
exactly once whether the provider's update call returns or raises; the
update-poll handler (check_updates) never invokes cleanup — zero calls on
every path, success, soft failure and raised error alike. -/
theorem C4_cleanup_discipline :
    (∀ (el : AppImageListElement) (r : Bool),
      (update_action_button_clicked el true r).cleanup_calls = 1) ∧
    (∀ (el : AppImageListElement) (conf : Store)
      (cu : String → Option ResolverBehavior) (p : Bool),
      (check_updates el conf cu p).cleanup_calls = 0) := by
  constructor
  · intro el r
    cases r <;> rfl
  · intro el conf cu p
    unfold check_updates
    cases hra : read_config_for_app conf el.name with
    | error e => rfl
    | ok app_conf =>
      by_cases hu : (dictGet app_conf "update_url").getD "" = ""
      · simp [hu]
      · simp only [if_neg hu]
        cases hcu : cu ((dictGet app_conf "update_url").getD "") with
        | none => rfl
        | some manager =>
          rcases hm : manager.is_update_available_result with e | b <;> simp [hm]

/-! Claim C5. -/

/-- C5 counterexample: key derivation does not accept arbitrary display
names — a non-ascii name makes the ascii encoding raise, so no key is
produced. -/
theorem C5_counterexample : derive_b64name "é" = none := by decide

/-- C5 (amended): restricted to ascii identities the derivation always
succeeds, is deterministic (it is a function of the name), and is
injective: two ascii names derive the same key exactly when they are
equal. Non-ascii names raise UnicodeEncodeError instead of deriving a
key. -/
theorem C5_key_derivation (a b : String)
    (ha : ∀ c ∈ a.data, c.toNat < 128) (hb : ∀ c ∈ b.data, c.toNat < 128) :
    (derive_b64name a).isSome = true ∧
    (derive_b64name a = derive_b64name b ↔ a = b) := by
  refine ⟨by rw [derive_b64name_some a ha]; rfl, ?_, ?_⟩
  · exact fun h => derive_b64name_injective a b ha hb h
  · intro h
    rw [h]

/-- C5 witness: the amended theorem applied to the ascii names "App" and
"Foo". -/
theorem C5_key_derivation_witness :
    (derive_b64name "App").isSome = true ∧
    (derive_b64name "App" = derive_b64name "Foo" ↔ "App" = "Foo") :=
  C5_key_derivation "App" "Foo" (by decide) (by decide)

/-! Claim C9. -/

/-- C9: when the stored update url does not yield a Resolver, the poll is a
soft failure: the element is untouched (is_updatable_from_url stays unset
and installed_status is not mutated), no exception escapes, and the only
GUI effects are the initial button hide and the css error mark on the url
row. -/
theorem C9_update_poll_soft_failure (el : AppImageListElement) (conf : Store)
    (cu : String → Option ResolverBehavior) (app_conf : AppConfig) (url : String)
    (h1 : read_config_for_app conf el.name = .ok app_conf)
    (h2 : (dictGet app_conf "update_url").getD "" = url)
    (h3 : url ≠ "") (h4 : cu url = none) :
    (check_updates el conf cu true).el = el ∧
    (check_updates el conf cu true).el.is_updatable_from_url = el.is_updatable_from_url ∧
    (check_updates el conf cu true).el.installed_status = el.installed_status ∧
    (check_updates el conf cu true).gui =
      [GuiAction.set_update_btn_visible false, GuiAction.add_css_error_update_url_row] ∧
    (check_updates el conf cu true).cleanup_calls = 0 ∧
    (check_updates el conf cu true).uncaught = none := by
  have hout : check_updates el conf cu true =
      { el, gui := [GuiAction.set_update_btn_visible false,
          GuiAction.add_css_error_update_url_row], cleanup_calls := 0, uncaught := none } := by
    unfold check_updates
    rw [h1]
    simp only [h2, if_neg h3, h4]
    rfl
  rw [hout]
  exact ⟨rfl, rfl, rfl, rfl, rfl, rfl⟩

/-- C9 witness: the theorem applied to an installed "App" whose stored
update url "bad-url" yields no Resolver. -/
theorem C9_update_poll_soft_failure_witness :
    (check_updates (mkEl "App" .INSTALLED) [("QXBw", [("update_url", "bad-url")])]
        (fun _ => none) true).el = mkEl "App" .INSTALLED ∧
    (check_updates (mkEl "App" .INSTALLED) [("QXBw", [("update_url", "bad-url")])]
        (fun _ => none) true).el.is_updatable_from_url =
      (mkEl "App" .INSTALLED).is_updatable_from_url ∧
    (check_updates (mkEl "App" .INSTALLED) [("QXBw", [("update_url", "bad-url")])]
        (fun _ => none) true).el.installed_status =
      (mkEl "App" .INSTALLED).installed_status ∧
    (check_updates (mkEl "App" .INSTALLED) [("QXBw", [("update_url", "bad-url")])]
        (fun _ => none) true).gui =
      [GuiAction.set_update_btn_visible false, GuiAction.add_css_error_update_url_row] ∧
    (check_updates (mkEl "App" .INSTALLED) [("QXBw", [("update_url", "bad-url")])]
        (fun _ => none) true).cleanup_calls = 0 ∧
    (check_updates (mkEl "App" .INSTALLED) [("QXBw", [("update_url", "bad-url")])]
        (fun _ => none) true).uncaught = none :=
  C9_update_poll_soft_failure (mkEl "App" .INSTALLED)
    [("QXBw", [("update_url", "bad-url")])] (fun _ => none)
    [("update_url", "bad-url"), ("b64name", "QXBw")] "bad-url"
    rfl (by decide) (by decide) rfl

/-! Claim C6. -/

/-- C6: installing a NOT_INSTALLED element whose name collides with an
installed package (provider.is_updatable is true) and with no cached
resolution presents the conflict modal and performs no state-changing
provider call and no element or store mutation; closing the modal with
'cancel' clears update_logic, performs no provider call, and leaves the
element — including its NOT_INSTALLED status — and the store unchanged. -/
theorem C6_conflict_flow (el : AppImageListElement) (conf : Store)
    (il : List AppImageListElement) (r : Bool)
    (hst : el.installed_status = .NOT_INSTALLED) (hul : el.update_logic = none) :
    ((on_primary_action_button_clicked el conf true il r).calls = [] ∧
     (on_primary_action_button_clicked el conf true il r).modal_presented = true ∧
     (on_primary_action_button_clicked el conf true il r).el = el ∧
     (on_primary_action_button_clicked el conf true il r).conf = conf) ∧
    ((on_conflict_modal_close el conf true il r "cancel").calls = [] ∧
     (on_conflict_modal_close el conf true il r "cancel").el = el ∧
     (on_conflict_modal_close el conf true il r "cancel").el.installed_status =
       .NOT_INSTALLED ∧
     (on_conflict_modal_close el conf true il r "cancel").conf = conf) ∧
    (∀ el2 : AppImageListElement,
      (on_conflict_modal_close el2 conf true il r "cancel").el.update_logic = none) := by
  have hcancel : ∀ el2 : AppImageListElement,
      on_conflict_modal_close el2 conf true il r "cancel" =
        { el := { el2 with update_logic := none }, conf, calls := [],
          modal_presented := false, emitted_uninstalled := false, uncaught := none } := by
    intro el2
    rfl
  have hel : ({ el with update_logic := none } : AppImageListElement) = el := by
    cases el
    simp_all
  refine ⟨?_, ?_, ?_⟩
  · rw [primary_click_eq_not_installed el conf true il r hst]
    unfold on_primary_action_not_installed
    rw [if_pos ⟨rfl, hul⟩]
    exact ⟨rfl, rfl, rfl, rfl⟩
  · rw [hcancel el, hel]
    exact ⟨rfl, rfl, hst, rfl⟩
  · intro el2
    rw [hcancel el2]

/-- C6 witness: the theorem applied to a trusted NOT_INSTALLED "Foo"
colliding with an installed "Foo". -/
theorem C6_conflict_flow_witness :
    ((on_primary_action_button_clicked (mkEl "Foo" .NOT_INSTALLED) c1conf true
        [mkEl "Foo" .INSTALLED] false).calls = [] ∧
     (on_primary_action_button_clicked (mkEl "Foo" .NOT_INSTALLED) c1conf true
        [mkEl "Foo" .INSTALLED] false).modal_presented = true ∧
     (on_primary_action_button_clicked (mkEl "Foo" .NOT_INSTALLED) c1conf true
        [mkEl "Foo" .INSTALLED] false).el = mkEl "Foo" .NOT_INSTALLED ∧
     (on_primary_action_button_clicked (mkEl "Foo" .NOT_INSTALLED) c1conf true
        [mkEl "Foo" .INSTALLED] false).conf = c1conf) ∧
    ((on_conflict_modal_close (mkEl "Foo" .NOT_INSTALLED) c1conf true
        [mkEl "Foo" .INSTALLED] false "cancel").calls = [] ∧
     (on_conflict_modal_close (mkEl "Foo" .NOT_INSTALLED) c1conf true
        [mkEl "Foo" .INSTALLED] false "cancel").el = mkEl "Foo" .NOT_INSTALLED ∧
     (on_conflict_modal_close (mkEl "Foo" .NOT_INSTALLED) c1conf true
        [mkEl "Foo" .INSTALLED] false "cancel").el.installed_status = .NOT_INSTALLED ∧
     (on_conflict_modal_close (mkEl "Foo" .NOT_INSTALLED) c1conf true
        [mkEl "Foo" .INSTALLED] false "cancel").conf = c1conf) ∧
    (on_conflict_modal_close (mkEl "Bar" .NOT_INSTALLED) c1conf true
      [mkEl "Foo" .INSTALLED] false "cancel").el.update_logic = none :=
  ⟨(C6_conflict_flow (mkEl "Foo" .NOT_INSTALLED) c1conf [mkEl "Foo" .INSTALLED] false
      (by decide) (by decide)).1,
   (C6_conflict_flow (mkEl "Foo" .NOT_INSTALLED) c1conf [mkEl "Foo" .INSTALLED] false
      (by decide) (by decide)).2.1,
   (C6_conflict_flow (mkEl "Foo" .NOT_INSTALLED) c1conf [mkEl "Foo" .INSTALLED] false
      (by decide) (by decide)).2.2 (mkEl "Bar" .NOT_INSTALLED)⟩

/-! Claim C7. -/

theorem primary_click_trusted (el : AppImageListElement) (conf : Store) (pu : Bool)
    (il : List AppImageListElement) (r : Bool) :
    (on_primary_action_button_clicked el conf pu il r).el.trusted = el.trusted := by
  unfold on_primary_action_button_clicked on_primary_action_installed
    on_primary_action_not_installed
  repeat' split <;> try rfl

theorem secondary_click_trusted (el : AppImageListElement) :
    (on_secondary_action_button_clicked el).el.trusted = el.trusted := by
  unfold on_secondary_action_button_clicked
  split
  · dsimp only
    split
    · next h => simp [set_trusted, h.1]
    · rfl
  · rfl

theorem check_updates_trusted (el : AppImageListElement) (conf : Store)
    (cu : String → Option ResolverBehavior) (p : Bool) :
    (check_updates el conf cu p).el.trusted = el.trusted := by
  unfold check_updates
  split
  · rfl
  · dsimp only
    split
    · rfl
    · split
      · rfl
      · split <;> rfl

theorem conflict_close_trusted (el : AppImageListElement) (conf : Store) (pu : Bool)
    (il : List AppImageListElement) (r : Bool) (d : String) :
    (on_conflict_modal_close el conf pu il r d).el.trusted = el.trusted := by
  unfold on_conflict_modal_close
  split
  · rfl
  · split
    · rfl
    · rw [primary_click_trusted]

/-- C7: the trust flag is one-directional and written only by the unlock
action — every modelled lifecycle handler (install/uninstall click, launch
click, update click, update poll, install delegate failure, conflict-modal
close) leaves trusted exactly as it was, and the unlock banner handler
sets it to true; in particular no action ever moves trusted from true to
false and no execution or install action sets it as a side effect. -/
theorem C7_trust_gate :
    (∀ (el : AppImageListElement) (conf : Store) (pu : Bool)
      (il : List AppImageListElement) (r : Bool),
      (on_primary_action_button_clicked el conf pu il r).el.trusted = el.trusted) ∧
    (∀ el : AppImageListElement,
      (on_secondary_action_button_clicked el).el.trusted = el.trusted) ∧
    (∀ (el : AppImageListElement) (mf ur : Bool),
      (update_action_button_clicked el mf ur).el.trusted = el.trusted) ∧
    (∀ (el : AppImageListElement) (conf : Store)
      (cu : String → Option ResolverBehavior) (p : Bool),
      (check_updates el conf cu p).el.trusted = el.trusted) ∧
    (∀ (el : AppImageListElement) (e : Unit),
      (install_file el (Except.error e)).trusted = el.trusted) ∧
    (∀ (el : AppImageListElement) (conf : Store) (pu : Bool)
      (il : List AppImageListElement) (r : Bool) (d : String),
      (on_conflict_modal_close el conf pu il r d).el.trusted = el.trusted) ∧
    (∀ el : AppImageListElement, (after_trust_buttons_interaction el).trusted = true) := by
  refine ⟨primary_click_trusted, secondary_click_trusted, ?_, check_updates_trusted,
    fun el e => rfl, conflict_close_trusted, fun el => rfl⟩
  intro el mf ur
  cases mf <;> cases ur <;> rfl

/-! Claim C8. -/

/-- A store whose "A" record carries an inconsistent b64name field and an
unrecognized extension field. -/
def c8conf : Store := [("QQ==", [("b64name", "XXX"), ("website", "w"), ("ext", "z")])]

/-- C8 counterexample: the website write is not verbatim-preserving for
every persisted mapping — the record lookup unconditionally stamps the
b64name field with the derived key, so a stored record whose b64name read
"XXX" comes back rewritten to "QQ==" after writing the website field. -/
theorem C8_counterexample :
    dictGet ((dictGet (on_web_browser_input_apply c8conf "A" "http://x" true) "QQ==").getD [])
      "b64name" = some "QQ==" ∧
    dictGet ((dictGet c8conf "QQ==").getD []) "b64name" = some "XXX" :=
  ⟨rfl, rfl⟩

/-- C8 (amended): a committed website write preserves verbatim every field
of the app's record except the written field and the bookkeeping field
b64name (which is rewritten to the derived key by the record lookup), sets
the website field to the stripped text, and preserves every other
application's record verbatim. -/
theorem C8_config_rmw_preservation (conf : Store) (name text : String) (ok : Bool)
    (k : String) (hk : derive_b64name name = some k)
    (hpath : ¬(pyStrip text ≠ "" ∧ ok = false)) :
    (∀ f, f ≠ "website" → f ≠ "b64name" →
      dictGet ((dictGet (on_web_browser_input_apply conf name text ok) k).getD []) f =
        dictGet ((dictGet conf k).getD []) f) ∧
    dictGet ((dictGet (on_web_browser_input_apply conf name text ok) k).getD []) "website" =
      some (pyStrip text) ∧
    dictGet ((dictGet (on_web_browser_input_apply conf name text ok) k).getD []) "b64name" =
      some k ∧
    (∀ k2, k2 ≠ k →
      dictGet (on_web_browser_input_apply conf name text ok) k2 = dictGet conf k2) := by
  have hread : read_config_for_app conf name = .ok (dictSet
      ((dictGet conf k).getD []) "b64name" k) := by
    unfold read_config_for_app
    simp only [hk]
    cases hg : dictGet conf k <;> simp [hg]
  have hb64 : dictGet (dictSet (dictSet ((dictGet conf k).getD []) "b64name" k)
      "website" (pyStrip text)) "b64name" = some k := by
    rw [dictGet_dictSet_ne _ _ _ _ (by decide)]
    exact dictGet_dictSet_self _ _ _
  have hout : on_web_browser_input_apply conf name text ok =
      dictSet conf k (dictSet (dictSet ((dictGet conf k).getD []) "b64name" k)
        "website" (pyStrip text)) := by
    unfold on_web_browser_input_apply
    rw [if_neg hpath]
    simp only [hread, hb64]
  rw [hout, dictGet_dictSet_self]
  refine ⟨?_, ?_, hb64, ?_⟩
  · intro f hfw hfb
    show dictGet (dictSet (dictSet ((dictGet conf k).getD []) "b64name" k)
      "website" (pyStrip text)) f = _
    rw [dictGet_dictSet_ne _ _ _ _ hfw, dictGet_dictSet_ne _ _ _ _ hfb]
  · exact dictGet_dictSet_self _ _ _
  · intro k2 hk2
    exact dictGet_dictSet_ne _ _ _ _ hk2

/-- C8 witness: the amended theorem applied to the concrete store, reading
back the extension field, the written website, the stamped key, and an
unrelated record. -/
theorem C8_config_rmw_preservation_witness :
    (dictGet ((dictGet (on_web_browser_input_apply c8conf "A" "http://x" true) "QQ==").getD [])
        "ext" = dictGet ((dictGet c8conf "QQ==").getD []) "ext") ∧
    (dictGet ((dictGet (on_web_browser_input_apply c8conf "A" "http://x" true) "QQ==").getD [])
        "website" = some (pyStrip "http://x")) ∧
    (dictGet ((dictGet (on_web_browser_input_apply c8conf "A" "http://x" true) "QQ==").getD [])
        "b64name" = some "QQ==") ∧
    (dictGet (on_web_browser_input_apply c8conf "A" "http://x" true) "other" =
      dictGet c8conf "other") :=
  ⟨(C8_config_rmw_preservation c8conf "A" "http://x" true "QQ==" (by decide) (by decide)).1
      "ext" (by decide) (by decide),
   (C8_config_rmw_preservation c8conf "A" "http://x" true "QQ==" (by decide) (by decide)).2.1,
   (C8_config_rmw_preservation c8conf "A" "http://x" true "QQ==" (by decide) (by decide)).2.2.1,
   (C8_config_rmw_preservation c8conf "A" "http://x" true "QQ==" (by decide) (by decide)).2.2.2
      "other" (by decide)⟩

/-! Claim C3. -/

/-- The editor after a user session ending with rows ("A","1"), ("A","2"),
("B","3"): three rows added, first row keyed "A" valued "1", second row
keyed "X" valued "2" then re-keyed "A", third row keyed "B" valued "3". -/
def envScenario : EnvEditorState :=
  let st := create_edit_env_var_form { rows := [], save_btn_sensitive := false } "" ""
  let st := create_edit_env_var_form st "" ""
  let st := create_edit_env_var_form st "" ""
  let st := set_key_text st 0 "A"
  let st := set_value_text st 0 "1"
  let st := set_key_text st 1 "X"
  let st := set_value_text st 1 "2"
  let st := set_key_text st 1 "A"
  let st := set_key_text st 2 "B"
  let st := set_value_text st 2 "3"
  st

/-- C3 counterexample: with the working set ("A","1"), ("A","2"), ("B","3")
only the row whose entry changed last among the duplicates carries the
error mark — the first "A" row stays valid — and committing (reachable:
the save button is sensitive after the last edit) yields ["A=1", "B=3"],
not ["B=3"]. -/
theorem C3_counterexample :
    envScenario.rows.map EnvRow.key_text = ["A", "A", "B"] ∧
    envScenario.rows.map EnvRow.value_text = ["1", "2", "3"] ∧
    envScenario.rows.map EnvRow.key_error = [false, true, false] ∧
    update_env_variables envScenario.rows = ["A=1", "B=3"] ∧
    envScenario.save_btn_sensitive = true :=
  ⟨rfl, rfl, rfl, rfl, rfl⟩

/-- C3 (amended): validation runs only for the row whose entry changed —
the handler leaves every other row's state untouched — so among duplicate
keys only rows edited while the duplicate existed are marked invalid; in
the scenario the first "A" row stays valid and commit yields
["A=1", "B=3"]. The commit itself includes only rows free of error marks
whose stripped key is non-empty, each formatted as KEY=value with the
value shell-quoted. -/
theorem C3_env_editor_validation :
    (update_env_variables envScenario.rows = ["A=1", "B=3"] ∧
     envScenario.rows.map EnvRow.key_error = [false, true, false]) ∧
    (∀ (st : EnvEditorState) (i j : Nat), j ≠ i →
      (on_env_var_value_changed st i).rows[j]? = st.rows[j]?) ∧
    (∀ (rows : List EnvRow) (s : String), s ∈ update_env_variables rows →
      ∃ r, r ∈ rows ∧ r.key_error = false ∧ r.value_error = false ∧
        pyStrip r.key_text ≠ "" ∧
        s = pyStrip r.key_text ++ "=" ++ shlex_quote (pyStrip r.value_text)) := by
  refine ⟨⟨rfl, rfl⟩, ?_, ?_⟩
  · intro st i j hne
    unfold on_env_var_value_changed
    cases hg : st.rows[i]? with
    | none => rfl
    | some row =>
      dsimp only
      by_cases hk : row.key_text = ""
      · simp only [if_pos hk]
        exact List.getElem?_set_ne (fun hh => hne hh.symm)
      · simp only [if_neg hk]
        exact List.getElem?_set_ne (fun hh => hne hh.symm)
  · intro rows s hs
    induction rows with
    | nil => simp [update_env_variables] at hs
    | cons r rest ih =>
      unfold update_env_variables at hs
      by_cases herr : r.key_error = true ∨ r.value_error = true
      · rw [if_pos herr] at hs
        obtain ⟨r2, hmem, hprops⟩ := ih hs
        exact ⟨r2, List.mem_cons_of_mem r hmem, hprops⟩
      · rw [if_neg herr] at hs
        push_neg at herr
        dsimp only at hs
        by_cases hkey : pyStrip r.key_text ≠ ""
        · rw [if_pos hkey] at hs
          rcases List.mem_cons.mp hs with hh | hh
          · exact ⟨r, List.mem_cons_self r rest,
              Bool.not_eq_true _ ▸ herr.1, Bool.not_eq_true _ ▸ herr.2, hkey, hh⟩
          · obtain ⟨r2, hmem, hprops⟩ := ih hh
            exact ⟨r2, List.mem_cons_of_mem r hmem, hprops⟩
        · rw [if_neg hkey] at hs
          obtain ⟨r2, hmem, hprops⟩ := ih hs
          exact ⟨r2, List.mem_cons_of_mem r hmem, hprops⟩

/-- C3 witness: frame property applied at the scenario's second row against
its first, and commit soundness applied to the committed "A=1". -/
theorem C3_env_editor_validation_witness :
    (on_env_var_value_changed envScenario 1).rows[0]? = envScenario.rows[0]? ∧
    (∃ r, r ∈ envScenario.rows ∧ r.key_error = false ∧ r.value_error = false ∧
      pyStrip r.key_text ≠ "" ∧
      "A=1" = pyStrip r.key_text ++ "=" ++ shlex_quote (pyStrip r.value_text)) :=
  ⟨C3_env_editor_validation.2.1 envScenario 1 0 (by decide),
   C3_env_editor_validation.2.2 envScenario.rows "A=1" (by decide)⟩

end Gearlever
